import Mathlib

/-!
Shallow embedding of the AgentPay protocol core (src/skill/bridge_skill.py and
src/skill/agentpay_client.py).  Python floats are modelled as exact rationals,
timestamps as integers, Python dictionaries as Lean structures, and the union
return shape of track_bridge_status (error dict or status dict) as an inductive
type.  Definitions follow the source line by line; theorems check the
specification claims against them.
-/

namespace AgentPay

/-- Supported blockchain networks, mirroring the Chain enum in
bridge_skill.py (registration order: Arbitrum, Base, Optimism, Polygon). -/
inductive Chain where
  | ARBITRUM_SEPOLIA
  | BASE_SEPOLIA
  | OPTIMISM_SEPOLIA
  | POLYGON_AMOY
deriving DecidableEq, Repr

/-- BridgeRoute dataclass from bridge_skill.py. -/
structure BridgeRoute where
  from_chain : Chain
  to_chain : Chain
  estimated_time_seconds : ℤ
  estimated_gas_cost_usd : ℚ
  bridge_fee_usd : ℚ
  total_cost_usd : ℚ
  reliability_score : ℚ
deriving DecidableEq, Repr

/-- MultiChainBridgeSkill.find_optimal_route: fixed gas cost of 0.50 USD, a
0.1 percent bridge fee, 10 minutes when either endpoint is Base Sepolia and
15 minutes otherwise, reliability 0.95, total cost gas plus fee.  The source
performs no same-chain check and raises nothing: the function is total. -/
def find_optimal_route (from_chain to_chain : Chain) (amount : ℚ) : BridgeRoute :=
  let base_gas_cost : ℚ := 0.50
  let bridge_fee : ℚ := amount * 0.001
  let estimated_time : ℤ :=
    if from_chain = Chain.BASE_SEPOLIA ∨ to_chain = Chain.BASE_SEPOLIA then
      10 * 60
    else
      15 * 60
  let reliability : ℚ := 0.95
  let total_cost : ℚ := base_gas_cost + bridge_fee
  { from_chain := from_chain
    to_chain := to_chain
    estimated_time_seconds := estimated_time
    estimated_gas_cost_usd := base_gas_cost
    bridge_fee_usd := bridge_fee
    total_cost_usd := total_cost
    reliability_score := reliability }

/-- One insertion step of a stable sort on total cost: the new element goes
after every element whose key is less than or equal to its own, so elements
with equal keys keep their relative order. -/
def insertByCost (r : BridgeRoute) : List BridgeRoute → List BridgeRoute
  | [] => [r]
  | x :: xs =>
    if x.total_cost_usd ≤ r.total_cost_usd then x :: insertByCost r xs
    else r :: x :: xs

/-- Stable sort by total cost, modelling the stable list.sort of Python used
in compare_routes. -/
def sortByCost (l : List BridgeRoute) : List BridgeRoute :=
  l.foldl (fun acc r => insertByCost r acc) []

/-- MultiChainBridgeSkill.compare_routes: drop the source chain from the
candidates, build a route to each remaining chain in candidate order, then
stable-sort by total cost. -/
def compare_routes (from_chain : Chain) (amount : ℚ) (target_chains : List Chain) :
    List BridgeRoute :=
  sortByCost
    ((target_chains.filter (fun t => decide (t ≠ from_chain))).map
      (fun t => find_optimal_route from_chain t amount))

/-- BridgeTransaction dataclass from bridge_skill.py. -/
structure BridgeTransaction where
  tx_hash : String
  from_chain : Chain
  to_chain : Chain
  amount : ℚ
  status : String
  timestamp : ℤ
  estimated_arrival : ℤ
deriving DecidableEq, Repr

/-- MultiChainBridgeSkill.bridge_usdc: computes the route, records a
transaction with stored status pending, timestamp now and estimated arrival
now plus the route duration, and appends it to the history.  The mock tx hash
(a sha256 of the inputs and the clock) is passed in as a parameter. -/
def bridge_usdc (from_chain to_chain : Chain) (amount : ℚ) (tx_hash : String)
    (now : ℤ) (history : List BridgeTransaction) :
    BridgeTransaction × List BridgeTransaction :=
  let route := find_optimal_route from_chain to_chain amount
  let transaction : BridgeTransaction :=
    { tx_hash := tx_hash
      from_chain := from_chain
      to_chain := to_chain
      amount := amount
      status := "pending"
      timestamp := now
      estimated_arrival := now + route.estimated_time_seconds }
  (transaction, history ++ [transaction])

/-- Truncation toward zero, the behaviour of int() in Python on a float. -/
def pyInt (q : ℚ) : ℤ := if 0 ≤ q then Int.floor q else Int.ceil q

/-- Status snapshot dictionary returned by track_bridge_status when the
transaction is found. -/
structure StatusSnapshot where
  tx_hash : String
  status : String
  progress : ℤ
  from_chain : Chain
  to_chain : Chain
  amount : ℚ
  timestamp : ℤ
  estimated_arrival : ℤ
  time_remaining_seconds : ℤ
deriving DecidableEq, Repr

/-- Return shape of track_bridge_status: either the error dictionary
(error Transaction not found, tx_hash) returned when the hash is absent, or a
status snapshot.  The source raises no exception in either case. -/
inductive TrackResult where
  | notFound (tx_hash : String)
  | found (snapshot : StatusSnapshot)
deriving DecidableEq, Repr

/-- MultiChainBridgeSkill.track_bridge_status: looks up the first history
entry with the given hash; if absent, returns the error dictionary.  If now
has reached the estimated arrival the status is completed with progress 100;
otherwise progress is int(elapsed / total * 100) with status in_progress.
Division by a zero total (impossible for dispatched transactions, whose
duration is 600 or 900 seconds) yields 0 here where Python would raise. -/
def track_bridge_status (tx_hash : String) (history : List BridgeTransaction)
    (now : ℤ) : TrackResult :=
  match history.find? (fun t => t.tx_hash == tx_hash) with
  | none => TrackResult.notFound tx_hash
  | some tx =>
    let statusProgress : String × ℤ :=
      if now ≥ tx.estimated_arrival then ("completed", 100)
      else
        let elapsed : ℤ := now - tx.timestamp
        let total_time : ℤ := tx.estimated_arrival - tx.timestamp
        ("in_progress", pyInt (((elapsed : ℚ) / (total_time : ℚ)) * 100))
    TrackResult.found
      { tx_hash := tx_hash
        status := statusProgress.1
        progress := statusProgress.2
        from_chain := tx.from_chain
        to_chain := tx.to_chain
        amount := tx.amount
        timestamp := tx.timestamp
        estimated_arrival := tx.estimated_arrival
        time_remaining_seconds := max 0 (tx.estimated_arrival - now) }

/-- Per-transaction summary dictionary produced by get_bridge_history. -/
structure HistoryEntry where
  tx_hash : String
  from_chain : Chain
  to_chain : Chain
  amount : ℚ
  status : String
  timestamp : ℤ
deriving DecidableEq, Repr

/-- Projection of a transaction to its history summary dictionary. -/
def historyEntryOf (tx : BridgeTransaction) : HistoryEntry :=
  { tx_hash := tx.tx_hash
    from_chain := tx.from_chain
    to_chain := tx.to_chain
    amount := tx.amount
    status := tx.status
    timestamp := tx.timestamp }

/-- Python slice l[-limit:] for a natural limit: the whole list when limit
is 0 (since l[-0:] is l[0:]), otherwise the last limit elements. -/
def pySliceLast (l : List BridgeTransaction) (limit : ℕ) : List BridgeTransaction :=
  if limit = 0 then l else l.drop (l.length - limit)

/-- MultiChainBridgeSkill.get_bridge_history: the slice history[-limit:],
reversed (newest first), each entry summarised. -/
def get_bridge_history (history : List BridgeTransaction) (limit : ℕ) :
    List HistoryEntry :=
  ((pySliceLast history limit).reverse).map historyEntryOf

/-- Cost breakdown dictionary of estimate_total_cost. -/
structure CostBreakdown where
  bridge_gas_cost : ℚ
  bridge_fee : ℚ
  bridge_total : ℚ
  escrow_fee : Option ℚ
  total_cost : ℚ
  percentage_of_amount : ℚ
deriving DecidableEq, Repr

/-- MultiChainBridgeSkill.estimate_total_cost: route costs, plus when
requested a simplified escrow fee of 1 percent with the reputation tiers of
the fee engine but no complexity or volume adjustment, plus the percentage
total_cost / amount * 100.  The function performs no amount validation; the
only failure in the source is the Python ZeroDivisionError of that final
division when amount is 0, modelled as none. -/
def estimate_total_cost (from_chain to_chain : Chain) (amount : ℚ)
    (include_escrow_fee : Bool) (worker_reputation : ℤ) : Option CostBreakdown :=
  let route := find_optimal_route from_chain to_chain amount
  let bridge_total : ℚ := route.total_cost_usd
  let escrow_fee : Option ℚ :=
    if include_escrow_fee then
      let base_fee_percent : ℚ :=
        if worker_reputation ≥ 800 then 1.0 * 0.9
        else if worker_reputation ≥ 500 then 1.0 * 0.95
        else 1.0
      some (amount * (base_fee_percent / 100))
    else none
  let total_cost : ℚ :=
    match escrow_fee with
    | some f => bridge_total + f
    | none => bridge_total
  if amount = 0 then none
  else
    some
      { bridge_gas_cost := route.estimated_gas_cost_usd
        bridge_fee := route.bridge_fee_usd
        bridge_total := bridge_total
        escrow_fee := escrow_fee
        total_cost := total_cost
        percentage_of_amount := (total_cost / amount) * 100 }

/-- AgentPayClient._calculate_fee: base fee 1 percent, complexity multiplier
(0 maps to 0.75, 1 to 1.0, 2 to 1.5, anything else to the dict.get default
1.0), single highest-tier volume discount, single highest-tier reputation
discount, additive 0.5 percent cross-chain surcharge, and a final clamp of
the fee between 0.5 and 3 percent of the amount.  The source performs no
amount validation and raises nothing. -/
def calculate_fee (amount : ℚ) (complexity : ℤ) (worker_reputation : ℤ)
    (is_cross_chain : Bool) : ℚ :=
  let fee1 : ℚ := amount * 0.01
  let complexity_multiplier : ℚ :=
    if complexity = 0 then 0.75
    else if complexity = 1 then 1.0
    else if complexity = 2 then 1.5
    else 1.0
  let fee2 : ℚ := fee1 * complexity_multiplier
  let fee3 : ℚ :=
    if amount ≥ 50000 then fee2 * 0.7
    else if amount ≥ 10000 then fee2 * 0.8
    else if amount ≥ 1000 then fee2 * 0.9
    else fee2
  let fee4 : ℚ :=
    if worker_reputation ≥ 800 then fee3 * 0.9
    else if worker_reputation ≥ 500 then fee3 * 0.95
    else fee3
  let fee5 : ℚ := if is_cross_chain then fee4 + amount * 0.005 else fee4
  let min_fee : ℚ := amount * 0.005
  let max_fee : ℚ := amount * 0.03
  max min_fee (min fee5 max_fee)

/-- AgentPayClient._get_worker_reputation: the mocked reputation oracle,
a constant 750. -/
def get_worker_reputation (_worker_address : String) : ℤ := 750

/-- AgentPayClient._generate_escrow_id from an integer clock:
int(time.time() * 1000) modulo 1000000. -/
def generate_escrow_id (now : ℤ) : ℤ := (now * 1000) % 1000000

/-- The fields of the escrow details dictionary built by create_escrow that
the settlement logic reads. -/
structure EscrowDetails where
  employer : String
  worker : String
  amount : ℚ
  fee : ℚ
  task : String
  deadline : ℤ
  is_cross_chain : Bool
  complexity : ℤ
  worker_reputation : ℤ
  escrow_id : ℤ
  status : String
deriving DecidableEq, Repr

/-- AgentPayClient.create_escrow: cross-chain when a worker chain is given
and differs from the employer chain (a missing worker chain is falsy in the
source), reputation from the oracle, fee from the fee engine, deadline now
plus deadline_hours * 3600, id from the clock, status created. -/
def create_escrow (wallet_address : String) (current_chain : Chain)
    (worker_address : String) (amount : ℚ) (task_description : String)
    (deadline_hours : ℤ) (complexity : ℤ) (worker_chain : Option Chain)
    (now : ℤ) : EscrowDetails :=
  let is_cross_chain : Bool :=
    match worker_chain with
    | none => false
    | some w => decide (w ≠ current_chain)
  let worker_reputation := get_worker_reputation worker_address
  let fee := calculate_fee amount complexity worker_reputation is_cross_chain
  { employer := wallet_address
    worker := worker_address
    amount := amount
    fee := fee
    task := task_description
    deadline := now + deadline_hours * 3600
    is_cross_chain := is_cross_chain
    complexity := complexity
    worker_reputation := worker_reputation
    escrow_id := generate_escrow_id now
    status := "created" }

/-- Submission dictionary returned by AgentPayClient.submit_work. -/
structure Submission where
  escrow_id : ℤ
  work_url : String
  submitted_by : String
  timestamp : ℤ
  status : String
deriving DecidableEq, Repr

/-- AgentPayClient.submit_work without the mock hash field. -/
def submit_work (wallet_address : String) (escrow_id : ℤ) (work_url : String)
    (now : ℤ) : Submission :=
  { escrow_id := escrow_id
    work_url := work_url
    submitted_by := wallet_address
    timestamp := now
    status := "submitted" }

/-- Verification result dictionary of verify_work_with_ai. -/
structure VerificationResult where
  escrow_id : ℤ
  passed : Bool
  score : ℤ
  reason : String
  timestamp : ℤ
  verified_by : String
deriving DecidableEq, Repr

/-- AgentPayClient.verify_work_with_ai: the verdict is hard-coded in the
source, passed true with score 95 and a fixed reason, independent of the
criteria and the work url. -/
def verify_work_with_ai (escrow_id : ℤ) (_criteria : String)
    (_work_url : String) (now : ℤ) : VerificationResult :=
  { escrow_id := escrow_id
    passed := true
    score := 95
    reason := "Work meets all criteria: proper format, correct data count, high quality."
    timestamp := now
    verified_by := "AI Agent (Claude)" }

/-- Payment dictionary appended to the flow results on release. -/
structure PaymentRecord where
  worker_payment : ℚ
  protocol_fee : ℚ
  status : String
  timestamp : ℤ
deriving DecidableEq, Repr

/-- Results dictionary of execute_full_flow; payment is present exactly when
the release step ran. -/
structure FlowResults where
  escrow : EscrowDetails
  submission : Submission
  verification : VerificationResult
  payment : Option PaymentRecord
deriving DecidableEq, Repr

/-- AgentPayClient.execute_full_flow with the verification collaborator as a
parameter: create the escrow (no worker chain is passed in the source, so the
flow is same-chain with the default 24 hour deadline), submit the work, run
the verifier, and build the payment record only under the guard
if verification passed. -/
def executeFullFlowWith (verifier : ℤ → String → String → VerificationResult)
    (wallet_address : String) (current_chain : Chain) (worker_address : String)
    (amount : ℚ) (task_description criteria work_url : String)
    (complexity : ℤ) (now : ℤ) : FlowResults :=
  let escrow := create_escrow wallet_address current_chain worker_address amount
    task_description 24 complexity none now
  let submission := submit_work wallet_address escrow.escrow_id work_url now
  let verification := verifier escrow.escrow_id criteria work_url
  let payment : Option PaymentRecord :=
    if verification.passed then
      some
        { worker_payment := amount
          protocol_fee := escrow.fee
          status := "released"
          timestamp := now }
    else none
  { escrow := escrow
    submission := submission
    verification := verification
    payment := payment }

/-- AgentPayClient.execute_full_flow as in the source, with the hard-coded
AI verifier plugged in. -/
def execute_full_flow (wallet_address : String) (current_chain : Chain)
    (worker_address : String) (amount : ℚ)
    (task_description criteria work_url : String) (complexity : ℤ)
    (now : ℤ) : FlowResults :=
  executeFullFlowWith (fun eid c u => verify_work_with_ai eid c u now)
    wallet_address current_chain worker_address amount task_description
    criteria work_url complexity now

/-! Helper lemmas shared by the claim theorems. -/

/-- Total cost of every route is gas plus fee and does not depend on the
destination chain. -/
theorem find_optimal_route_total_cost (from_chain to_chain : Chain) (amount : ℚ) :
    (find_optimal_route from_chain to_chain amount).total_cost_usd =
      0.5 + amount * 0.001 := by
  norm_num [find_optimal_route]

/-- Route durations are positive (600 or 900 seconds). -/
theorem find_optimal_route_time_pos (from_chain to_chain : Chain) (amount : ℚ) :
    0 < (find_optimal_route from_chain to_chain amount).estimated_time_seconds := by
  simp only [find_optimal_route]
  split <;> norm_num

/-- Inserting an element whose key is at least every key in the list puts it
at the end. -/
theorem insertByCost_of_all_le (r : BridgeRoute) (acc : List BridgeRoute)
    (h : ∀ x ∈ acc, x.total_cost_usd ≤ r.total_cost_usd) :
    insertByCost r acc = acc ++ [r] := by
  induction acc with
  | nil => rfl
  | cons x xs ih =>
    simp only [insertByCost, if_pos (h x (List.mem_cons_self x xs)), List.cons_append]
    rw [ih (fun y hy => h y (List.mem_cons_of_mem x hy))]

/-- Folding the insertion over a list of constant keys appends it unchanged. -/
theorem foldl_insertByCost_const (c : ℚ) (l : List BridgeRoute) :
    ∀ acc : List BridgeRoute, (∀ x ∈ l, x.total_cost_usd = c) →
      (∀ x ∈ acc, x.total_cost_usd = c) →
      List.foldl (fun acc r => insertByCost r acc) acc l = acc ++ l := by
  induction l with
  | nil => intro acc _ _; simp
  | cons x xs ih =>
    intro acc hl hacc
    have hx : x.total_cost_usd = c := hl x (List.mem_cons_self x xs)
    have step : insertByCost x acc = acc ++ [x] :=
      insertByCost_of_all_le x acc (fun y hy => by rw [hacc y hy, hx])
    simp only [List.foldl_cons, step]
    rw [ih (acc ++ [x]) (fun y hy => hl y (List.mem_cons_of_mem x hy))
      (fun y hy => by
        rcases List.mem_append.mp hy with h1 | h1
        · exact hacc y h1
        · rw [List.mem_singleton.mp h1, hx])]
    simp

/-- The stable sort leaves a constant-key list unchanged. -/
theorem sortByCost_const (c : ℚ) (l : List BridgeRoute)
    (h : ∀ x ∈ l, x.total_cost_usd = c) : sortByCost l = l := by
  unfold sortByCost
  rw [foldl_insertByCost_const c l [] h (by intro x hx; cases hx)]
  simp

/-- Truncation toward zero agrees with floor on nonnegative rationals. -/
theorem pyInt_of_nonneg (q : ℚ) (h : 0 ≤ q) : pyInt q = Int.floor q := by
  simp [pyInt, h]

/-- find? on a list followed by a fresh element returns that element when
nothing before it matches. -/
theorem find?_append_singleton (p : BridgeTransaction → Bool)
    (l : List BridgeTransaction) (x : BridgeTransaction)
    (hl : ∀ y ∈ l, p y = false) (hx : p x = true) :
    (l ++ [x]).find? p = some x := by
  induction l with
  | nil => simp [List.find?, hx]
  | cons y ys ih =>
    simp only [List.cons_append, List.find?]
    rw [hl y (List.mem_cons_self y ys)]
    exact ih (fun z hz => hl z (List.mem_cons_of_mem y hz))

/-! Claim theorems. -/

/-- C1: for every amount greater than 0, every complexity level in the set
of LOW, MEDIUM and HIGH (encoded 0, 1, 2), every reputation between 0 and
1000, and both values of cross_chain, the fee returned by calculate_fee lies
between 0.005 times the amount and 0.03 times the amount. -/
theorem fee_within_bounds (amount : ℚ) (complexity worker_reputation : ℤ)
    (is_cross_chain : Bool) (hamt : 0 < amount)
    (_hc : complexity = 0 ∨ complexity = 1 ∨ complexity = 2)
    (_hr0 : 0 ≤ worker_reputation) (_hr1 : worker_reputation ≤ 1000) :
    0.005 * amount ≤ calculate_fee amount complexity worker_reputation is_cross_chain ∧
    calculate_fee amount complexity worker_reputation is_cross_chain ≤ 0.03 * amount := by
  simp only [calculate_fee]
  constructor
  · exact le_max_of_le_left (le_of_eq (mul_comm _ _))
  · apply max_le
    · linarith
    · exact le_trans (min_le_right _ _) (le_of_eq (mul_comm _ _))

/-- Witness for C1 at amount 100, complexity 1, reputation 750, same-chain. -/
theorem fee_within_bounds_witness :
    (0 : ℚ) < 100 ∧
    (0.005 * (100 : ℚ) ≤ calculate_fee 100 1 750 false ∧
      calculate_fee 100 1 750 false ≤ 0.03 * 100) :=
  ⟨by norm_num,
    fee_within_bounds 100 1 750 false (by norm_num) (Or.inr (Or.inl rfl))
      (by norm_num) (by norm_num)⟩

/-- C3 counterexample: at amount 100, complexity MEDIUM, reputation 750,
same-chain, the fee is not 0.855.  The source applies the single reputation
tier times 0.95 only, so the fee is 0.95; the spec scenario stacked an extra
times 0.9 that no rule produces for these inputs. -/
theorem fee_scenario_not_0855 : calculate_fee 100 1 750 false ≠ 0.855 := by
  norm_num [calculate_fee, max_def, min_def]

/-- C3 amended: at amount 100, complexity MEDIUM, reputation 750, same-chain,
calculate_fee returns exactly 0.95 (clamping 100 * 0.01 * 1.0 * 0.95 into
the interval from 0.5 to 3.0 leaves it unchanged). -/
theorem fee_scenario_value : calculate_fee 100 1 750 false = 0.95 := by
  norm_num [calculate_fee, max_def, min_def]

/-- C4 counterexample: find_optimal_route called with the same source and
destination chain returns an ordinary route instead of failing; the source
has no same-chain check and no SameChainError exists anywhere in the code. -/
theorem same_chain_route_counterexample :
    find_optimal_route Chain.ARBITRUM_SEPOLIA Chain.ARBITRUM_SEPOLIA 100 =
      { from_chain := Chain.ARBITRUM_SEPOLIA
        to_chain := Chain.ARBITRUM_SEPOLIA
        estimated_time_seconds := 900
        estimated_gas_cost_usd := 0.5
        bridge_fee_usd := 0.1
        total_cost_usd := 0.6
        reliability_score := 0.95 } := by
  norm_num [find_optimal_route]
  decide

/-- C4 amended: for every chain A and every amount, find_optimal_route with
from_chain and to_chain both equal to A returns the ordinary route record
(duration 600 seconds when A is Base Sepolia, 900 otherwise) rather than
failing; no same-chain validation exists in the source. -/
theorem same_chain_route_returns (A : Chain) (amount : ℚ) :
    find_optimal_route A A amount =
      { from_chain := A
        to_chain := A
        estimated_time_seconds := if A = Chain.BASE_SEPOLIA then 600 else 900
        estimated_gas_cost_usd := 0.5
        bridge_fee_usd := amount * 0.001
        total_cost_usd := 0.5 + amount * 0.001
        reliability_score := 0.95 } := by
  simp only [find_optimal_route, or_self]
  split <;> norm_num

/-- C5 counterexample: at amount -100 both fee-quoting operations return a
value instead of failing; no InvalidAmountError exists in the source.
calculate_fee returns -0.5 and estimate_total_cost returns a breakdown. -/
theorem nonpositive_amount_counterexample :
    calculate_fee (-100) 1 750 false = -(0.5) ∧
    (estimate_total_cost Chain.ARBITRUM_SEPOLIA Chain.BASE_SEPOLIA (-100)
        true 0).isSome = true := by
  constructor
  · norm_num [calculate_fee, max_def, min_def]
  · norm_num [estimate_total_cost]

/-- C5 amended: neither operation validates the amount.  For every amount at
most 0, calculate_fee returns 0.005 times the amount (the clamp collapses to
its lower arm, a non-positive value) instead of failing; estimate_total_cost
returns a breakdown for every negative amount, and its only failure at a
non-positive amount is the division by zero at amount exactly 0, which is a
ZeroDivisionError in Python, not an InvalidAmountError. -/
theorem nonpositive_amount_behavior (amount : ℚ) (complexity worker_reputation : ℤ)
    (is_cross_chain : Bool) (from_chain to_chain : Chain)
    (include_escrow_fee : Bool) (est_reputation : ℤ) (h : amount ≤ 0) :
    calculate_fee amount complexity worker_reputation is_cross_chain = 0.005 * amount ∧
    (amount < 0 →
      (estimate_total_cost from_chain to_chain amount include_escrow_fee
          est_reputation).isSome = true) ∧
    estimate_total_cost from_chain to_chain 0 include_escrow_fee est_reputation = none := by
  refine ⟨?_, ?_, ?_⟩
  · simp only [calculate_fee]
    have hm : amount * 0.03 ≤ amount * 0.005 := by linarith
    rw [max_eq_left (le_trans (min_le_right _ _) hm), mul_comm]
  · intro hneg
    simp only [estimate_total_cost]
    rw [if_neg (ne_of_lt hneg)]
    rfl
  · simp [estimate_total_cost]

/-- Witness for C5 amended at amount -100. -/
theorem nonpositive_amount_behavior_witness :
    (-100 : ℚ) ≤ 0 ∧
    (calculate_fee (-100) 1 750 false = 0.005 * (-100) ∧
      ((-100 : ℚ) < 0 →
        (estimate_total_cost Chain.ARBITRUM_SEPOLIA Chain.BASE_SEPOLIA (-100)
            true 0).isSome = true) ∧
      estimate_total_cost Chain.ARBITRUM_SEPOLIA Chain.BASE_SEPOLIA 0 true 0 = none) :=
  ⟨by norm_num,
    nonpositive_amount_behavior (-100) 1 750 false Chain.ARBITRUM_SEPOLIA
      Chain.BASE_SEPOLIA true 0 (by norm_num)⟩

/-- C2: the full-flow composition never builds a payment record unless the
verification step returned passed true: for every verification collaborator
and every input, when the verification result of the flow has passed false
the flow produces no payment record (the release step is guarded by
if verification passed in the source). -/
theorem flow_no_release_on_failed_verification
    (verifier : ℤ → String → String → VerificationResult)
    (wallet_address : String) (current_chain : Chain) (worker_address : String)
    (amount : ℚ) (task_description criteria work_url : String)
    (complexity now : ℤ)
    (hfail : (executeFullFlowWith verifier wallet_address current_chain
        worker_address amount task_description criteria work_url complexity
        now).verification.passed = false) :
    (executeFullFlowWith verifier wallet_address current_chain worker_address
      amount task_description criteria work_url complexity now).payment = none := by
  simp only [executeFullFlowWith] at hfail ⊢
  simp [hfail]

/-- A collaborator that fails every verification, used to exercise the
failing branch of the flow. -/
def failingVerifier : ℤ → String → String → VerificationResult :=
  fun escrow_id _ _ =>
    { escrow_id := escrow_id
      passed := false
      score := 10
      reason := "Work does not meet the criteria."
      timestamp := 0
      verified_by := "test verifier" }

/-- Witness for C2: a concrete run with a failing verifier produces no
payment record. -/
theorem flow_no_release_on_failed_verification_witness :
    (executeFullFlowWith failingVerifier "0xEmployer" Chain.ARBITRUM_SEPOLIA
        "0xWorker" 100 "task" "criteria" "ipfs://work" 1 0).verification.passed
      = false ∧
    (executeFullFlowWith failingVerifier "0xEmployer" Chain.ARBITRUM_SEPOLIA
        "0xWorker" 100 "task" "criteria" "ipfs://work" 1 0).payment = none :=
  ⟨rfl,
    flow_no_release_on_failed_verification failingVerifier "0xEmployer"
      Chain.ARBITRUM_SEPOLIA "0xWorker" 100 "task" "criteria" "ipfs://work"
      1 0 rfl⟩

/-- C9: verify_work_with_ai ignores its inputs and always returns passed
true with score 95 and the same fixed reason text, and consequently every
run of execute_full_flow (which wires in that verifier) produces a payment
record. -/
theorem verify_always_passes_and_flow_releases :
    ∀ (escrow_id : ℤ) (criteria work_url : String) (vnow : ℤ)
      (wallet_address : String) (current_chain : Chain)
      (worker_address : String) (amount : ℚ)
      (task_description criteria2 work_url2 : String) (complexity now : ℤ),
      verify_work_with_ai escrow_id criteria work_url vnow =
        { escrow_id := escrow_id
          passed := true
          score := 95
          reason := "Work meets all criteria: proper format, correct data count, high quality."
          timestamp := vnow
          verified_by := "AI Agent (Claude)" } ∧
      (execute_full_flow wallet_address current_chain worker_address amount
          task_description criteria2 work_url2 complexity now).payment.isSome
        = true := by
  intro escrow_id criteria work_url vnow wallet_address current_chain
    worker_address amount task_description criteria2 work_url2 complexity now
  exact ⟨rfl, rfl⟩

/-- C6 counterexample: from Arbitrum Sepolia with candidates Optimism then
Base, both routes share the same total cost but the first listed route has
the strictly larger duration (900 versus 600 seconds), so the claimed
duration tie-break does not hold: the stable sort of the source keeps the
candidate input order on equal costs. -/
theorem compare_routes_tie_counterexample :
    compare_routes Chain.ARBITRUM_SEPOLIA 100
        [Chain.OPTIMISM_SEPOLIA, Chain.BASE_SEPOLIA] =
      [find_optimal_route Chain.ARBITRUM_SEPOLIA Chain.OPTIMISM_SEPOLIA 100,
        find_optimal_route Chain.ARBITRUM_SEPOLIA Chain.BASE_SEPOLIA 100] ∧
    (find_optimal_route Chain.ARBITRUM_SEPOLIA Chain.OPTIMISM_SEPOLIA
        100).total_cost_usd =
      (find_optimal_route Chain.ARBITRUM_SEPOLIA Chain.BASE_SEPOLIA
        100).total_cost_usd ∧
    (find_optimal_route Chain.ARBITRUM_SEPOLIA Chain.BASE_SEPOLIA
        100).estimated_time_seconds <
      (find_optimal_route Chain.ARBITRUM_SEPOLIA Chain.OPTIMISM_SEPOLIA
        100).estimated_time_seconds := by
  refine ⟨?_, ?_, ?_⟩
  · have h : ∀ x ∈ ([Chain.OPTIMISM_SEPOLIA,
        Chain.BASE_SEPOLIA].filter
          (fun t => decide (t ≠ Chain.ARBITRUM_SEPOLIA))).map
        (fun t => find_optimal_route Chain.ARBITRUM_SEPOLIA t 100),
        x.total_cost_usd = 0.5 + 100 * 0.001 := by
      intro x hx
      rcases List.mem_map.mp hx with ⟨t, _, rfl⟩
      exact find_optimal_route_total_cost _ _ _
    unfold compare_routes
    rw [sortByCost_const (0.5 + 100 * 0.001) _ h]
    rfl
  · rw [find_optimal_route_total_cost, find_optimal_route_total_cost]
  · decide

/-- C6 amended: compare_routes returns exactly the routes to the candidates
different from from_chain, in candidate input order (every route has the
same total cost, so the stable sort leaves the order unchanged); the output
is therefore sorted ascending by total cost, but ties are broken by the
candidate input order, not by duration. -/
theorem compare_routes_sorted_input_order (from_chain : Chain) (amount : ℚ)
    (target_chains : List Chain) :
    compare_routes from_chain amount target_chains =
      (target_chains.filter (fun t => decide (t ≠ from_chain))).map
        (fun t => find_optimal_route from_chain t amount) ∧
    (compare_routes from_chain amount target_chains).Pairwise
      (fun a b => a.total_cost_usd ≤ b.total_cost_usd) := by
  have h : ∀ x ∈ (target_chains.filter
      (fun t => decide (t ≠ from_chain))).map
      (fun t => find_optimal_route from_chain t amount),
      x.total_cost_usd = 0.5 + amount * 0.001 := by
    intro x hx
    rcases List.mem_map.mp hx with ⟨t, _, rfl⟩
    exact find_optimal_route_total_cost _ _ _
  have h1 : compare_routes from_chain amount target_chains =
      (target_chains.filter (fun t => decide (t ≠ from_chain))).map
        (fun t => find_optimal_route from_chain t amount) := by
    unfold compare_routes
    exact sortByCost_const (0.5 + amount * 0.001) _ h
  refine ⟨h1, ?_⟩
  rw [h1]
  exact List.pairwise_of_forall_mem_list
    (fun a ha b hb => by rw [h a ha, h b hb])

/-- C8 counterexample: for a reference absent from the history the status
query returns the error dictionary (error Transaction not found together
with the hash) as an ordinary value; it raises nothing, and no
TransactionNotFoundError exists anywhere in the source. -/
theorem track_missing_counterexample :
    track_bridge_status "0xdead" [] 0 = TrackResult.notFound "0xdead" := rfl

/-- C8 amended: for every transaction reference not present in the history,
track_bridge_status returns the error dictionary naming the reference
instead of a status snapshot; the failure is a returned value, not a raised
TransactionNotFoundError. -/
theorem track_missing_returns_error (tx_hash : String)
    (history : List BridgeTransaction) (now : ℤ)
    (habsent : ∀ t ∈ history, t.tx_hash ≠ tx_hash) :
    track_bridge_status tx_hash history now = TrackResult.notFound tx_hash := by
  have hnone : history.find? (fun t => t.tx_hash == tx_hash) = none := by
    apply List.find?_eq_none.mpr
    intro x hx
    simpa using habsent x hx
  simp [track_bridge_status, hnone]

/-- Witness for C8 amended on an empty history. -/
theorem track_missing_returns_error_witness :
    (∀ t ∈ ([] : List BridgeTransaction), t.tx_hash ≠ "0xmissing") ∧
    track_bridge_status "0xmissing" [] 5 = TrackResult.notFound "0xmissing" :=
  ⟨(by intro t ht; cases ht),
    track_missing_returns_error "0xmissing" [] 5 (by intro t ht; cases ht)⟩

/-- C10: the history query returns the last min(limit, n) transactions
newest first for every limit of at least 1, but with limit 0 the Python
slice history[-0:] is the whole history, so all n transactions are returned
newest first rather than zero entries. -/
theorem bridge_history_limit (history : List BridgeTransaction) (limit : ℕ) :
    (1 ≤ limit →
      get_bridge_history history limit =
        (history.reverse.take limit).map historyEntryOf) ∧
    get_bridge_history history 0 = history.reverse.map historyEntryOf := by
  constructor
  · intro hl
    unfold get_bridge_history pySliceLast
    rw [if_neg (by omega)]
    have hr : history.drop (history.length - limit) = List.rtake history limit := rfl
    rw [hr, List.rtake_eq_reverse_take_reverse, List.reverse_reverse]
  · unfold get_bridge_history pySliceLast
    simp

/-- A concrete transaction used by witnesses. -/
def txA : BridgeTransaction :=
  (bridge_usdc Chain.ARBITRUM_SEPOLIA Chain.BASE_SEPOLIA 100 "0xaaa" 0 []).1

/-- A second concrete transaction used by witnesses. -/
def txB : BridgeTransaction :=
  (bridge_usdc Chain.BASE_SEPOLIA Chain.POLYGON_AMOY 50 "0xbbb" 10 []).1

/-- Witness for C10 on a two-element history with limits 1 and 0. -/
theorem bridge_history_limit_witness :
    get_bridge_history [txA, txB] 1 =
      ([txA, txB].reverse.take 1).map historyEntryOf ∧
    get_bridge_history [txA, txB] 0 = [txA, txB].reverse.map historyEntryOf :=
  ⟨(bridge_history_limit [txA, txB] 1).1 (by norm_num),
    (bridge_history_limit [txA, txB] 0).2⟩

/-- C7 counterexample: a transaction dispatched at time 0 and queried at
time 0 has progress 0, yet the reported status is in_progress, not pending:
the source sets status to in_progress unconditionally before the estimated
arrival, so the claimed PENDING-when-progress-is-zero case never occurs. -/
theorem track_pending_counterexample :
    track_bridge_status "0xabc"
        (bridge_usdc Chain.ARBITRUM_SEPOLIA Chain.BASE_SEPOLIA 100 "0xabc" 0 []).2 0 =
      TrackResult.found
        { tx_hash := "0xabc"
          status := "in_progress"
          progress := 0
          from_chain := Chain.ARBITRUM_SEPOLIA
          to_chain := Chain.BASE_SEPOLIA
          amount := 100
          timestamp := 0
          estimated_arrival := 600
          time_remaining_seconds := 600 } ∧
    "in_progress" ≠ "pending" := by
  constructor
  · norm_num [track_bridge_status, bridge_usdc, find_optimal_route, pyInt,
      List.find?, max_def]
  · decide

/-- C7 amended: for every dispatched transaction (dispatched at t0 with the
route duration D onto a history with no clashing hash) and every query time
now at or after t0: when now has reached the estimated arrival t0 + D the
snapshot is completed with progress 100 and time_remaining 0; otherwise the
snapshot is in_progress (never pending) with
progress floor((now - t0) / D * 100), which is nonnegative and below 100,
and time_remaining max 0 (t0 + D - now). -/
theorem track_status_derivation (from_chain to_chain : Chain) (amount : ℚ)
    (tx_hash : String) (t0 now D : ℤ) (prior : List BridgeTransaction)
    (hD : D = (find_optimal_route from_chain to_chain amount).estimated_time_seconds)
    (hfresh : ∀ t ∈ prior, t.tx_hash ≠ tx_hash) (hnow : t0 ≤ now) :
    track_bridge_status tx_hash
        (bridge_usdc from_chain to_chain amount tx_hash t0 prior).2 now =
      TrackResult.found
        { tx_hash := tx_hash
          status := if now ≥ t0 + D then "completed" else "in_progress"
          progress := if now ≥ t0 + D then 100
            else Int.floor ((((now : ℚ) - (t0 : ℚ)) / (D : ℚ)) * 100)
          from_chain := from_chain
          to_chain := to_chain
          amount := amount
          timestamp := t0
          estimated_arrival := t0 + D
          time_remaining_seconds := max 0 (t0 + D - now) } ∧
    (¬ now ≥ t0 + D →
      0 ≤ Int.floor ((((now : ℚ) - (t0 : ℚ)) / (D : ℚ)) * 100) ∧
      Int.floor ((((now : ℚ) - (t0 : ℚ)) / (D : ℚ)) * 100) < 100) ∧
    (now ≥ t0 + D → max 0 (t0 + D - now) = 0) := by
  have hDpos : 0 < D := hD ▸ find_optimal_route_time_pos from_chain to_chain amount
  have hd : (0 : ℚ) < (D : ℚ) := by exact_mod_cast hDpos
  have he : (0 : ℚ) ≤ (now : ℚ) - (t0 : ℚ) := by
    rw [sub_nonneg]
    exact_mod_cast hnow
  have hfind : ((bridge_usdc from_chain to_chain amount tx_hash t0 prior).2).find?
      (fun t => t.tx_hash == tx_hash) =
      some (bridge_usdc from_chain to_chain amount tx_hash t0 prior).1 := by
    apply find?_append_singleton
    · intro y hy; simpa using hfresh y hy
    · simp [bridge_usdc]
  refine ⟨?_, ?_, ?_⟩
  · rw [track_bridge_status, hfind]
    by_cases hc : now ≥ t0 + D
    · simp only [bridge_usdc, hD] at hc ⊢
      simp [hc]
    · simp only [bridge_usdc, hD] at hc ⊢
      simp only [hD] at hd
      simp [hc]
      exact pyInt_of_nonneg _ (mul_nonneg (div_nonneg he (le_of_lt hd)) (by norm_num))
  · intro hc
    have hlt : now - t0 < D := by omega
    constructor
    · exact Int.le_floor.mpr (by
        push_cast
        exact mul_nonneg (div_nonneg he (le_of_lt hd)) (by norm_num))
    · apply Int.floor_lt.mpr
      have h1 : (now : ℚ) - (t0 : ℚ) < (D : ℚ) := by exact_mod_cast hlt
      have h2 : (((now : ℚ) - (t0 : ℚ)) / (D : ℚ)) < 1 := (div_lt_one hd).mpr h1
      push_cast
      nlinarith [h2]
  · intro hc; omega

/-- Witness for C7 amended: dispatch from Arbitrum to Base at time 0 and
query at time 1, before the 600 second arrival. -/
theorem track_status_derivation_witness :
    (600 : ℤ) = (find_optimal_route Chain.ARBITRUM_SEPOLIA Chain.BASE_SEPOLIA
        100).estimated_time_seconds ∧
    (∀ t ∈ ([] : List BridgeTransaction), t.tx_hash ≠ "0xtx") ∧
    (0 : ℤ) ≤ 1 ∧
    (track_bridge_status "0xtx"
        (bridge_usdc Chain.ARBITRUM_SEPOLIA Chain.BASE_SEPOLIA 100 "0xtx" 0 []).2 1 =
      TrackResult.found
        { tx_hash := "0xtx"
          status := if (1 : ℤ) ≥ 0 + 600 then "completed" else "in_progress"
          progress := if (1 : ℤ) ≥ 0 + 600 then 100
            else Int.floor (((((1 : ℤ) : ℚ) - ((0 : ℤ) : ℚ)) / (((600 : ℤ)) : ℚ)) * 100)
          from_chain := Chain.ARBITRUM_SEPOLIA
          to_chain := Chain.BASE_SEPOLIA
          amount := 100
          timestamp := 0
          estimated_arrival := 0 + 600
          time_remaining_seconds := max 0 (0 + 600 - 1) } ∧
      (¬ (1 : ℤ) ≥ 0 + 600 →
        0 ≤ Int.floor (((((1 : ℤ) : ℚ) - ((0 : ℤ) : ℚ)) / (((600 : ℤ)) : ℚ)) * 100) ∧
        Int.floor (((((1 : ℤ) : ℚ) - ((0 : ℤ) : ℚ)) / (((600 : ℤ)) : ℚ)) * 100) < 100) ∧
      ((1 : ℤ) ≥ 0 + 600 → max (0 : ℤ) (0 + 600 - 1) = 0)) :=
  ⟨by decide, (by intro t ht; cases ht), by norm_num,
    track_status_derivation Chain.ARBITRUM_SEPOLIA Chain.BASE_SEPOLIA 100 "0xtx"
      0 1 600 [] (by decide) (by intro t ht; cases ht) (by norm_num)⟩

end AgentPay
